import Mathlib

/-
A verification development for the template-enrichment pipeline
(`lib/enrich.py` of the portainer_templates repository).

The Python source is shallowly embedded:
* JSON values are the inductive `Json` (numbers are modelled as integers;
  the pipeline only reads and writes integer counts and strings);
* Python dicts are association lists with first-match lookup and
  replace-or-append assignment, matching insertion order;
* the network is an explicit function from the request actually sent
  (URL plus headers) to one of the outcomes the source distinguishes:
  a parsed JSON body, a 2xx body that decodes but fails JSON parsing
  (JSONDecodeError, caught), a 2xx body that fails UTF-8 decoding or is
  truncated (UnicodeDecodeError / IncompleteRead — caught by NO except
  clause of make_request, so it propagates to the per-entry handler),
  an HTTP error status, or a transport failure (URLError / timeout);
* code that can raise (attribute errors on non-dict JSON bodies, type
  errors from `re.search` or `format_number` on non-string / non-integer
  values) is modelled with `Except`, carrying the in-place partially
  mutated entry at the raise point, exactly as the Python objects would
  retain mutations made before the exception;
* `time.sleep`, console formatting of the per-entry progress header, and
  file I/O are not modelled; log output is modelled as the list of the
  diagnostic lines the source prints inside the lookups and the driver's
  error handler.  The run timestamp is passed in as a string.
* A template entry whose "image" value is a truthy non-string is outside
  the catalog data model ("an image reference string"); the embedding
  maps it to a type error.  All claims quantify over entries with string
  image references.
-/

set_option autoImplicit false

/-- JSON values as read and written by the pipeline.  Numbers are
modelled as integers: the fields the pipeline touches are counts and
strings, and the catalog file holds no fractional numbers. -/
inductive Json where
  | null : Json
  | bool : Bool → Json
  | num : Int → Json
  | str : String → Json
  | arr : List Json → Json
  | obj : List (String × Json) → Json

/-- Python truthiness of a JSON value (`if not image:`, `if not data:`,
`if dockerhub["description"] and ...`). -/
def truthy : Json → Bool
  | Json.null => false
  | Json.bool b => b
  | Json.num n => n != 0
  | Json.str s => s != ""
  | Json.arr l => !l.isEmpty
  | Json.obj l => !l.isEmpty

/-- A Python dict with string keys, as an insertion-ordered association
list (keys are unique in every dict the pipeline builds or reads). -/
abbrev PyDict := List (String × Json)

/-- A catalog template entry: a Python dict. -/
abbrev Template := PyDict

/-- `d.get(k)` : first binding of `k`, if any. -/
def dictGet : PyDict → String → Option Json
  | [], _ => none
  | (k', v) :: rest, k => if k' = k then some v else dictGet rest k

/-- `d.get(k, default)`. -/
def dictGetD (d : PyDict) (k : String) (dflt : Json) : Json :=
  (dictGet d k).getD dflt

/-- `d[k] = v` : replace the existing binding in place, else append. -/
def dictSet : PyDict → String → Json → PyDict
  | [], k, v => [(k, v)]
  | (k', v') :: rest, k, v =>
    if k' = k then (k, v) :: rest else (k', v') :: dictSet rest k v

/-- `k in d`. -/
def hasKey (d : PyDict) (k : String) : Bool :=
  (dictGet d k).isSome

/-- `needle` starts the list `hay` (character-wise). -/
def startsWithL : List Char → List Char → Bool
  | [], _ => true
  | _ :: _, [] => false
  | a :: as, b :: bs => a = b && startsWithL as bs

/-- `needle` occurs contiguously inside `hay`; Python `needle in hay`
for strings. -/
def infixL (needle : List Char) : List Char → Bool
  | [] => startsWithL needle []
  | h :: t => startsWithL needle (h :: t) || infixL needle t

/-- Python substring test `needle in hay`. -/
def containsSub (needle hay : String) : Bool :=
  infixL needle.toList hay.toList

/-- Python `c in s` for a single character. -/
def strContains (s : String) (c : Char) : Bool :=
  s.toList.any (fun x => x = c)

/-- `s.split("/")[0]` : the segment before the first `/`. -/
def firstSegment (s : String) : String :=
  (s.toList.takeWhile (fun c => c ≠ '/')).asString

/-- `s.rsplit(":", 1)` when `:` occurs in `s`: the part before the last
colon and the part after it. -/
def rsplitColon (s : String) : String × String :=
  ((((s.toList.reverse.dropWhile (fun c => c ≠ ':')).drop 1).reverse).asString,
   ((s.toList.reverse.takeWhile (fun c => c ≠ ':')).reverse).asString)

/-- `s.split("/", 1)` when `/` occurs in `s`. -/
def splitFirstSlash (s : String) : String × String :=
  ((s.toList.takeWhile (fun c => c ≠ '/')).asString,
   (((s.toList.dropWhile (fun c => c ≠ '/')).drop 1)).asString)

/-- The fixed set of known non-Docker-Hub registry hostnames the parser
filters on. -/
def KNOWN_REGISTRIES : List String :=
  ["ghcr.io", "gcr.io", "quay.io", "mcr.microsoft.com", "lscr.io"]

/-- `parse_image_name`: decompose a Docker image string into
`(namespace, name, tag)`; `none` models the source's `(None, None, None)`
for non-Docker-Hub references. -/
def parse_image_name (image : String) : Option (String × String × String) :=
  if KNOWN_REGISTRIES.any (fun r => containsSub r image) then none
  else if strContains image '/' && strContains (firstSegment image) '.' then none
  else
    let p := if strContains image ':' then rsplitColon image else (image, "latest")
    if strContains p.1 '/' then
      some ((splitFirstSlash p.1).1, (splitFirstSlash p.1).2, p.2)
    else
      some ("library", p.1, p.2)

example : parse_image_name "nginx" = some ("library", "nginx", "latest") := by decide
example : parse_image_name "nginx:latest" = some ("library", "nginx", "latest") := by decide
example : parse_image_name "linuxserver/heimdall" = some ("linuxserver", "heimdall", "latest") := by decide
example : parse_image_name "ghcr.io/org/image:v1" = none := by decide
example : parse_image_name "myreg.example/foo" = none := by decide

/-- The request `make_request` actually hands to the transport: the URL
and the header list built from the `Request` object plus `add_header`
calls. -/
structure HttpRequest where
  url : String
  headers : List (String × String)

/-- What the transport can do with one request, matching the cases
`make_request` distinguishes: a 2xx response whose body decodes and
parses as JSON; a 2xx response whose body decodes but fails `json.loads`
(`JSONDecodeError`, caught); a 2xx response whose body fails UTF-8
decoding in `response.read().decode()` or is cut short (the resulting
`UnicodeDecodeError` / `IncompleteRead`, carried as a message, is caught
by none of the three except clauses); a non-2xx status raised as
`HTTPError`; and `URLError`/`TimeoutError`. -/
inductive HttpOutcome where
  | success : Json → HttpOutcome
  | malformed : HttpOutcome
  | undecodable : String → HttpOutcome
  | httpError : Nat → HttpOutcome
  | urlError : String → HttpOutcome

/-- The environment's network: a function from the request sent to its
outcome.  Making it a function of the full request (headers included)
lets responses depend on credentials, as a real server's can. -/
abbrev Net := HttpRequest → HttpOutcome

/-- Truthiness of `os.environ.get("GITHUB_TOKEN")`: present and
non-empty. -/
def tokenTruthy : Option String → Bool
  | none => false
  | some s => s != ""

/-- The request construction inside `make_request`: default headers plus
the User-Agent, plus the GitHub token as an Authorization header when
the URL contains `"github.com"` and the token is set. -/
def build_request (token : Option String) (url : String)
    (headers : List (String × String)) : HttpRequest :=
  let hs := headers ++ [("User-Agent", "PortainerTemplatesEnricher/1.0")]
  let hs := if containsSub "github.com" url && tokenTruthy token then
              hs ++ [("Authorization", "token " ++ token.getD "")]
            else hs
  ⟨url, hs⟩

/-- `make_request`: perform the request.  `Except.ok (some body)` is a
parsed JSON body; `Except.ok none` is the absorbed failure (`return
None`): silently for a 404 and for a JSON decode failure (the bare
`except json.JSONDecodeError: return None`), with one diagnostic line
for another HTTP error or a transport failure.  `Except.error` is the
uncaught exception from a 2xx body that fails UTF-8 decoding or is
truncated: none of the three except clauses catches it, so it
propagates out of `make_request` to the caller. -/
def make_request (net : Net) (token : Option String) (url : String)
    (headers : List (String × String)) :
    Except String (Option Json) × List String :=
  match net (build_request token url headers) with
  | HttpOutcome.success body => (Except.ok (some body), [])
  | HttpOutcome.malformed => (Except.ok none, [])
  | HttpOutcome.undecodable msg => (Except.error msg, [])
  | HttpOutcome.httpError code =>
    if code = 404 then (Except.ok none, [])
    else (Except.ok none, ["  HTTP " ++ toString code ++ " for " ++ url])
  | HttpOutcome.urlError msg =>
    (Except.ok none, ["  Request failed for " ++ url ++ ": " ++ msg])

/-- Round `10 * n / d` to the nearest integer, ties to even: the exact
value of the one-decimal rendering of the quotient `n / d`. -/
def roundHalf10 (n d : Int) : Int :=
  let q := 10 * n / d
  let r := 10 * n % d
  if 2 * r < d then q
  else if d < 2 * r then q + 1
  else if q % 2 = 0 then q else q + 1

/-- One-decimal rendering of `n / d`, modelling the f-string `:.1f`
applied to the quotient (exact rounding; the source's binary float
rendering agrees away from floating-point boundary cases, and on every
input appearing in the theorems below). -/
def fmtDiv (n d : Int) : String :=
  let t := roundHalf10 n d
  toString (t / 10) ++ "." ++ toString (t % 10)

/-- `format_number`: large numbers with a K/M suffix. -/
def format_number (n : Int) : String :=
  if 1000000 ≤ n then fmtDiv n 1000000 ++ "M"
  else if 1000 ≤ n then fmtDiv n 1000 ++ "K"
  else toString n

example : format_number 500 = "500" := by decide
example : format_number 1500 = "1.5K" := by decide
example : format_number 2300000 = "2.3M" := by decide
example : format_number 0 = "0" := by decide
example : format_number 999999 = "1000.0K" := by decide

/-- `format_number` applied to a JSON field value: Python raises a
`TypeError` unless the value is a number (booleans are numbers in
Python and compare below one thousand). -/
def format_number_json : Json → Except String String
  | Json.num n => Except.ok (format_number n)
  | Json.bool b => Except.ok (if b then "True" else "False")
  | _ => Except.error "TypeError"

/-- Docker Hub API base URL. -/
def DOCKER_HUB_API : String := "https://hub.docker.com/v2/repositories"

/-- GitHub API base URL. -/
def GITHUB_API : String := "https://api.github.com/repos"

/-- The URL `fetch_dockerhub_info` requests. -/
def dockerhub_url (namespace_ name : String) : String :=
  DOCKER_HUB_API ++ "/" ++ namespace_ ++ "/" ++ name ++ "/"

/-- The URL `fetch_github_info` requests. -/
def github_repo_url (owner repo : String) : String :=
  GITHUB_API ++ "/" ++ owner ++ "/" ++ repo

/-- The dict `fetch_dockerhub_info` builds from the response body.  The
field values come from `data.get(...)` and so are arbitrary JSON. -/
structure DockerHubInfo where
  description : Json
  star_count : Json
  pull_count : Json
  last_updated : Json
  is_official : Bool
  hub_url : String

/-- `fetch_dockerhub_info`: one Docker Hub repository-info query.
`Except.error` models the exceptions that escape: the `AttributeError`
Python raises when the parsed body is a truthy non-dict (`data.get` on a
list/string/number), and an uncaught decoding exception propagating out
of `make_request`; both pass through to the caller. -/
def fetch_dockerhub_info (net : Net) (token : Option String)
    (namespace_ name : String) :
    Except String (Option DockerHubInfo) × List String :=
  match make_request net token (dockerhub_url namespace_ name) [] with
  | (Except.error e, logs) => (Except.error e, logs)
  | (Except.ok none, logs) => (Except.ok none, logs)
  | (Except.ok (some data), logs) =>
    if truthy data then
      match data with
      | Json.obj fields =>
        (Except.ok (some
          ⟨dictGetD fields "description" (Json.str ""),
           dictGetD fields "star_count" (Json.num 0),
           dictGetD fields "pull_count" (Json.num 0),
           dictGetD fields "last_updated" (Json.str ""),
           namespace_ = "library",
           if namespace_ = "library" then "https://hub.docker.com/_/" ++ name
           else "https://hub.docker.com/r/" ++ namespace_ ++ "/" ++ name⟩), logs)
      | _ => (Except.error "AttributeError", logs)
    else (Except.ok none, logs)

/-- The whitespace characters of the regex class `\s` (ASCII). -/
def wsChars : List Char := [' ', '\t', '\n', '\r', '\x0b', '\x0c']

/-- Character class `[^/\s]` (group 1 of the github.com pattern). -/
def g1Class (c : Char) : Bool :=
  !(c = '/' || wsChars.contains c)

/-- Character class `[^/\s\)\"]` (group 2 of both patterns). -/
def g2Class (c : Char) : Bool :=
  !(c = '/' || wsChars.contains c || c = ')' || c = '\"')

/-- Maximal non-empty prefix of characters satisfying `p`, with the
rest; `none` when the first character fails `p` (a `+`-group match). -/
def takeWhile1 (p : Char → Bool) (l : List Char) :
    Option (List Char × List Char) :=
  match l.takeWhile p with
  | [] => none
  | g => some (g, l.dropWhile p)

/-- Match `github\.com/([^/\s]+)/([^/\s\)\"]+)` anchored at the start of
`l`.  Group 1 is greedy but cannot contain `/`, so no backtracking can
succeed: the maximal run must be followed by a literal `/`. -/
def tryPat1At (l : List Char) : Option (List Char × List Char) :=
  if startsWithL "github.com/".toList l then
    match takeWhile1 g1Class (l.drop 11) with
    | none => none
    | some (g1, rest) =>
      match rest with
      | '/' :: rest2 =>
        match takeWhile1 g2Class rest2 with
        | none => none
        | some (g2, _) => some (g1, g2)
      | _ => none
  else none

/-- `re.search` of the github.com pattern: first position, scanning left
to right, where the anchored match succeeds. -/
def searchPat1 : List Char → Option (List Char × List Char)
  | [] => none
  | c :: t =>
    match tryPat1At (c :: t) with
    | some r => some r
    | none => searchPat1 t

/-- Match `https?://([^/]+)\.github\.io/([^/\s\)\"]+)` anchored at the
start of `l`.  Group 1 `[^/]+` is greedy; the following literal
`.github.io/` contains a `/` only at its end, so the unique way to match
is that the maximal `/`-free run ends in `.github.io` with a non-empty
remainder for group 1, followed by a literal `/` and group 2. -/
def tryPat2At (l : List Char) : Option (List Char × List Char) :=
  if startsWithL "http".toList l then
    let l1 := l.drop 4
    let l2 := if startsWithL "s".toList l1 then l1.drop 1 else l1
    if startsWithL "://".toList l2 then
      let l3 := l2.drop 3
      let run := l3.takeWhile (fun c => c ≠ '/')
      let rest := l3.dropWhile (fun c => c ≠ '/')
      if startsWithL ".github.io".toList.reverse run.reverse then
        let g1 := run.take (run.length - 10)
        if g1.isEmpty then none
        else
          match rest with
          | '/' :: rest2 =>
            match takeWhile1 g2Class rest2 with
            | none => none
            | some (g2, _) => some (g1, g2)
          | _ => none
      else none
    else none
  else none

/-- `re.search` of the github.io pattern. -/
def searchPat2 : List Char → Option (List Char × List Char)
  | [] => none
  | c :: t =>
    match tryPat2At (c :: t) with
    | some r => some r
    | none => searchPat2 t

/-- The pattern loop of `extract_github_repo`: the github.com pattern is
tried over the whole text first, then the github.io pattern. -/
def searchPatterns (l : List Char) : Option (List Char × List Char) :=
  match searchPat1 l with
  | some r => some r
  | none => searchPat2 l

/-- Python `s.rstrip(chars)`: remove every trailing character drawn from
the set `chars` (NOT suffix removal). -/
def rstripChars (s : String) (chars : List Char) : String :=
  ((s.toList.reverse.dropWhile (fun c => chars.contains c)).reverse).asString

/-- `extract_github_repo`: scan the Docker Hub description for a GitHub
URL, else fall back to the `linuxserver/docker-{name}` convention.
`Except.error` models the `TypeError` from `re.search` on a non-string
description value. -/
def extract_github_repo (dockerhub_data : Option DockerHubInfo)
    (image : String) : Except String (Option (String × String)) :=
  let desc := match dockerhub_data with
              | some d => d.description
              | none => Json.str ""
  match desc with
  | Json.str s =>
    Except.ok
      (match searchPatterns s.toList with
       | some (owner, repo) =>
         some (owner.asString,
               rstripChars (rstripChars repo.asString ['.', 'g', 'i', 't']) ['/'])
       | none =>
         match parse_image_name image with
         | some (namespace_, name, _) =>
           if namespace_ = "linuxserver" then some ("linuxserver", "docker-" ++ name)
           else none
         | none => none)
  | _ => Except.error "TypeError"

/-- The dict `fetch_github_info` builds from the response body. -/
structure GithubInfo where
  github_url : Json
  github_stars : Json
  github_forks : Json
  github_issues : Json
  github_updated : Json
  github_description : Json
  github_license : Json

/-- `fetch_github_info`: one GitHub repository-info query.  The license
is `data.get("license", {}).get("spdx_id") if data.get("license") else
None`; a truthy non-dict license value raises `AttributeError`, modelled
as `Except.error`, as does a truthy non-dict body; an uncaught decoding
exception from `make_request` likewise passes through. -/
def fetch_github_info (net : Net) (token : Option String)
    (owner repo : String) : Except String (Option GithubInfo) × List String :=
  match make_request net token (github_repo_url owner repo) [] with
  | (Except.error e, logs) => (Except.error e, logs)
  | (Except.ok none, logs) => (Except.ok none, logs)
  | (Except.ok (some data), logs) =>
    if truthy data then
      match data with
      | Json.obj fields =>
        let lic := dictGetD fields "license" Json.null
        if truthy lic then
          match lic with
          | Json.obj lf =>
            (Except.ok (some
              ⟨dictGetD fields "html_url" (Json.str ""),
               dictGetD fields "stargazers_count" (Json.num 0),
               dictGetD fields "forks_count" (Json.num 0),
               dictGetD fields "open_issues_count" (Json.num 0),
               dictGetD fields "updated_at" (Json.str ""),
               dictGetD fields "description" (Json.str ""),
               dictGetD lf "spdx_id" Json.null⟩), logs)
          | _ => (Except.error "AttributeError", logs)
        else
          (Except.ok (some
            ⟨dictGetD fields "html_url" (Json.str ""),
             dictGetD fields "stargazers_count" (Json.num 0),
             dictGetD fields "forks_count" (Json.num 0),
             dictGetD fields "open_issues_count" (Json.num 0),
             dictGetD fields "updated_at" (Json.str ""),
             dictGetD fields "description" (Json.str ""),
             Json.null⟩), logs)
      | _ => (Except.error "AttributeError", logs)
    else (Except.ok none, logs)

example :
    extract_github_repo
      (some ⟨Json.str "See https://github.com/foo/bar for source", Json.num 0,
             Json.num 0, Json.str "", false, "u"⟩) "x"
    = Except.ok (some ("foo", "bar")) := rfl
example :
    extract_github_repo
      (some ⟨Json.str "Docs at https://foo.github.io/bar/ here", Json.num 0,
             Json.num 0, Json.str "", false, "u"⟩) "x"
    = Except.ok (some ("foo", "bar")) := rfl
example :
    extract_github_repo none "linuxserver/heimdall"
    = Except.ok (some ("linuxserver", "docker-heimdall")) := rfl
example :
    extract_github_repo
      (some ⟨Json.str "https://github.com/foo/digit", Json.num 0,
             Json.num 0, Json.str "", false, "u"⟩) "x"
    = Except.ok (some ("foo", "d")) := rfl

/-- `enrich_template`: add metadata to a single template entry.  The
result is the entry object itself, mutated in place by the source; an
`Except.error (msg, partial)` carries the exception message and the
state the entry had reached when the exception was raised (mutations
made before the raise point persist on the Python object).  The second
component is the console output (the "  Fetching: ..." line and the
lookups' diagnostic lines).  `time.sleep(REQUEST_DELAY)` has no
observable effect and is not modelled. -/
def enrich_template (net : Net) (token : Option String)
    (template : Template) :
    Except (String × Template) Template × List String :=
  let image := dictGetD template "image" (Json.str "")
  if truthy image then
    match image with
    | Json.str img =>
      match parse_image_name img with
      | none => (Except.ok template, [])
      | some (namespace_, name, _tag) =>
        if namespace_ = "" then (Except.ok template, [])
        else
          let log0 := "  Fetching: " ++ namespace_ ++ "/" ++ name
          match fetch_dockerhub_info net token namespace_ name with
          | (Except.error e, dlogs) =>
            (Except.error (e, template), log0 :: dlogs)
          | (Except.ok dockerhub, dlogs) =>
            let step :
                Except (String × Template) (Template × List (String × Json)) :=
              match dockerhub with
              | some d =>
                match format_number_json d.pull_count with
                | Except.error e => Except.error (e, template)
                | Except.ok pf =>
                  let docker_meta : Json := Json.obj
                    [("pulls", d.pull_count),
                     ("pulls_formatted", Json.str pf),
                     ("stars", d.star_count),
                     ("hub_url", Json.str d.hub_url),
                     ("last_updated", d.last_updated),
                     ("is_official", Json.bool d.is_official)]
                  let template2 :=
                    if truthy d.description
                       && !(truthy (dictGetD template "description" Json.null))
                    then dictSet template "description" d.description
                    else template
                  Except.ok (template2, [("docker", docker_meta)])
              | none => Except.ok (template, [])
            match step with
            | Except.error ep => (Except.error ep, log0 :: dlogs)
            | Except.ok (template2, metadata) =>
              match extract_github_repo dockerhub img with
              | Except.error e =>
                (Except.error (e, template2), log0 :: dlogs)
              | Except.ok github_repo =>
                match github_repo with
                | some (owner, repo) =>
                  match fetch_github_info net token owner repo with
                  | (Except.error e, glogs) =>
                    (Except.error (e, template2), log0 :: dlogs ++ glogs)
                  | (Except.ok github, glogs) =>
                    let metadata2 :=
                      match github with
                      | some g =>
                        metadata ++
                          [("github", Json.obj
                            [("url", g.github_url),
                             ("stars", g.github_stars),
                             ("forks", g.github_forks),
                             ("issues", g.github_issues),
                             ("updated", g.github_updated),
                             ("license", g.github_license)])]
                      | none => metadata
                    let template3 :=
                      if !metadata2.isEmpty
                      then dictSet template2 "metadata" (Json.obj metadata2)
                      else template2
                    (Except.ok template3, log0 :: dlogs ++ glogs)
                | none =>
                  let template3 :=
                    if !metadata.isEmpty
                    then dictSet template2 "metadata" (Json.obj metadata)
                    else template2
                  (Except.ok template3, log0 :: dlogs)
    | _ => (Except.error ("TypeError", template), [])
  else (Except.ok template, [])

/-- One iteration of the driver loop: on success the slot holds the
enriched entry and the entry counts when it carries a `metadata` key; on
an exception the slot holds the partially mutated entry (the same
object), the driver logs "  Error: ..." and the entry is not counted.
(The source's `templates[i-1] = enriched` re-assigns the same in-place
mutated object, so the slot always holds the enrichment result.) -/
def process_template (net : Net) (token : Option String)
    (t : Template) : Template × Bool × List String :=
  match enrich_template net token t with
  | (Except.ok t2, logs) => (t2, hasKey t2 "metadata", logs)
  | (Except.error (msg, p), logs) => (p, false, logs ++ ["  Error: " ++ msg])

/-- The driver loop of `main` over the template list: final list,
`enriched_count`, and the concatenated per-entry console output (the
`[i/total] title` progress headers, pure display, are not modelled). -/
def enrich_all (net : Net) (token : Option String) :
    List Template → List Template × Nat × List String
  | [] => ([], 0, [])
  | t :: rest =>
    let r := process_template net token t
    let rr := enrich_all net token rest
    (r.1 :: rr.1, (if r.2.1 then 1 else 0) + rr.2.1, r.2.2 ++ rr.2.2)

/-- Interpret a JSON array as a list of template entries (dicts); `none`
when some element is not a dict, in which case the driver's
`template.get("title", ...)` (outside the `try`) raises and the run
aborts with nothing written. -/
def asTemplates : List Json → Option (List Template)
  | [] => some []
  | Json.obj f :: rest => (asTemplates rest).map (fun ts => f :: ts)
  | _ :: _ => none

/-- `data.get("templates", [])` interpreted as entry dicts. -/
def getTemplates : Json → Option (List Template)
  | Json.arr items => asTemplates items
  | _ => none

/-- `main` after the catalog document has been loaded: run the driver
loop, stamp `enriched_at` with the current UTC timestamp (passed in as
`now`), store the template list back and return the document that is
persisted.  (Named `main_run`: Lean reserves `main` for programs.)  It
returns the persisted document, the reported count and the console
output.  `Except.error`
is the fatal path (a catalog whose `templates` value is not a list of
objects), on which nothing is written. -/
def main_run (net : Net) (token : Option String) (now : String)
    (data : Template) : Except String (Template × Nat × List String) :=
  match getTemplates (dictGetD data "templates" (Json.arr [])) with
  | none => Except.error "TypeError"
  | some ts =>
    let r := enrich_all net token ts
    let data2 := dictSet data "enriched_at" (Json.str now)
    let data3 := dictSet data2 "templates" (Json.arr (r.1.map Json.obj))
    Except.ok (data3, r.2.1, r.2.2)

/-- A transport that always fails; entries whose enrichment makes no
request never observe it. -/
def noNet : Net := fun _ => HttpOutcome.urlError "unreachable"

/-- A transport whose (2xx, JSON-parsed) response body is a dict whose
`description` is the JSON number 42 — a well-formed HTTP exchange that
drives `re.search` in `extract_github_repo` into a `TypeError` after the
description backfill has already mutated the entry. -/
def net1 : Net := fun _ => HttpOutcome.success (Json.obj [("description", Json.num 42)])

/-- An entry with image `nginx` and no description. -/
def t0 : Template := [("image", Json.str "nginx")]

/-- The partial state `t0` reaches under `net1` when the exception is
raised: the Docker Hub description (the number 42) has been backfilled. -/
def t0p : Template := [("image", Json.str "nginx"), ("description", Json.num 42)]

/-- An entry with an unresolvable image that already carries a
`metadata` key from a previous run. -/
def t4 : Template := [("image", Json.str "ghcr.io/org/image:v1"), ("metadata", Json.obj [])]

/-- A transport that answers differently according to whether the
request carries an Authorization header — distinguishing runs that
differ only in the credential. -/
def sniffNet : Net := fun req =>
  if req.headers.any (fun h => h.1 = "Authorization")
  then HttpOutcome.success (Json.obj [("pull_count", Json.num 1)])
  else HttpOutcome.success (Json.obj [("pull_count", Json.num 2)])

example : enrich_template net1 none t0 =
    (Except.error ("TypeError", t0p), ["  Fetching: library/nginx"]) := rfl
example : enrich_all net1 none [t0] =
    ([t0p], 0, ["  Fetching: library/nginx", "  Error: TypeError"]) := rfl
example : enrich_all noNet none [t4] = ([t4], 1, []) := rfl

/-- A transport outcome that is a failure (anything other than a parsed
2xx body). -/
def isFailure : HttpOutcome → Bool
  | HttpOutcome.success _ => false
  | _ => true

/-- The failure outcomes `make_request` absorbs without printing a
diagnostic line: a 404 status and a JSON decode failure. -/
def isSilentFailure : HttpOutcome → Bool
  | HttpOutcome.httpError c => c == 404
  | HttpOutcome.malformed => true
  | _ => false

/-- The failure outcome whose exception escapes `make_request`
uncaught: a 2xx body that fails UTF-8 decoding or is truncated. -/
def isRaising : HttpOutcome → Bool
  | HttpOutcome.undecodable _ => true
  | _ => false

/-- A one-entry catalog document whose single entry has an unresolvable
image. -/
def c8data : Template :=
  [("templates", Json.arr [Json.obj [("image", Json.str "ghcr.io/a/b")]])]

/-- The document `main_run` persists for `c8data` (timestamp "T"). -/
def c8out : Template :=
  [("templates", Json.arr [Json.obj [("image", Json.str "ghcr.io/a/b")]]),
   ("enriched_at", Json.str "T")]

example : main_run noNet none "T" c8data = Except.ok (c8out, 0, []) := rfl

/- ------------------------------------------------------------------
Helper lemmas.
------------------------------------------------------------------ -/

/-- If every member of `l1` is a member of `l2` and no member of `l2`
satisfies `q`, then no member of `l1` does. -/
theorem any_false_of_sub {q : Char → Bool} {l1 l2 : List Char}
    (hsub : ∀ a, a ∈ l1 → a ∈ l2) (h : l2.any q = false) :
    l1.any q = false := by
  cases hall : l1.any q with
  | false => rfl
  | true =>
    obtain ⟨x, hx, hqx⟩ := List.any_eq_true.mp hall
    have h2 : l2.any q = true := List.any_eq_true.mpr ⟨x, hsub x hx, hqx⟩
    rw [h] at h2
    exact Bool.noConfusion h2

/-- The part of a string before its last colon contains no character the
whole string does not contain. -/
theorem strContains_rsplitColon_fst {s : String} {c : Char}
    (h : strContains s c = false) :
    strContains (rsplitColon s).1 c = false := by
  unfold strContains at h ⊢
  have he : ((rsplitColon s).1).toList
      = (((s.toList.reverse.dropWhile (fun x => x ≠ ':')).drop 1).reverse) := rfl
  rw [he]
  refine any_false_of_sub (fun a ha => ?_) h
  have h1 := List.mem_reverse.mp ha
  have h2 := List.mem_of_mem_drop h1
  have h3 := (List.dropWhile_sublist _).mem h2
  exact List.mem_reverse.mp h3

/-- Setting a key makes lookup of that key return the new value. -/
theorem dictGet_dictSet (d : PyDict) (k : String) (v : Json) :
    dictGet (dictSet d k v) k = some v := by
  induction d with
  | nil => simp [dictSet, dictGet]
  | cons p rest ih =>
    obtain ⟨k', v'⟩ := p
    by_cases hk : k' = k
    · subst hk; simp [dictSet, dictGet]
    · simp [dictSet, dictGet, hk, ih]

/-- The driver loop maps each slot to the processing of the entry that
was at that slot. -/
theorem enrich_all_fst_map (net : Net) (token : Option String)
    (ts : List Template) :
    (enrich_all net token ts).1
      = ts.map (fun t => (process_template net token t).1) := by
  induction ts with
  | nil => rfl
  | cons t rest ih => simp [enrich_all, ih]

/-- The driver's count is the number of entries whose processing
completed and produced a result carrying a `metadata` key. -/
theorem enrich_all_count_filter (net : Net) (token : Option String)
    (ts : List Template) :
    (enrich_all net token ts).2.1
      = (ts.filter (fun t => (process_template net token t).2.1)).length := by
  induction ts with
  | nil => rfl
  | cons t rest ih =>
    by_cases hb : (process_template net token t).2.1 = true
    · simp [enrich_all, List.filter_cons, hb, ih]; omega
    · simp [enrich_all, List.filter_cons, hb, ih]

/-- The driver loop distributes over list append, componentwise. -/
theorem enrich_all_append (net : Net) (token : Option String)
    (l1 l2 : List Template) :
    enrich_all net token (l1 ++ l2) =
      ((enrich_all net token l1).1 ++ (enrich_all net token l2).1,
       (enrich_all net token l1).2.1 + (enrich_all net token l2).2.1,
       (enrich_all net token l1).2.2 ++ (enrich_all net token l2).2.2) := by
  induction l1 with
  | nil => simp [enrich_all]
  | cons t rest ih => simp [enrich_all, ih, Nat.add_assoc]

/- ------------------------------------------------------------------
Claims.
------------------------------------------------------------------ -/

/-- Claim C1, counterexample: a catalog entry (image `nginx`, no
description) whose enrichment raises — the Docker Hub body is a dict
whose `description` is the number 42, so `re.search` raises `TypeError`
in `extract_github_repo` — is NOT left identical to its state before
enrichment: the description backfill `template["description"] = ...`
had already mutated the entry in place.  The driver does log the error
and continue, but the persisted entry gained a `description` key. -/
theorem c1_counterexample :
    (enrich_all net1 none [t0]).2.2
      = ["  Fetching: library/nginx", "  Error: TypeError"]
    ∧ (enrich_all net1 none [t0]).1 = [t0p]
    ∧ hasKey t0 "description" = false
    ∧ hasKey t0p "description" = true
    ∧ (enrich_all net1 none [t0]).1 ≠ [t0] := by
  refine ⟨rfl, rfl, rfl, rfl, fun h => ?_⟩
  have h2 := congrArg (fun l => hasKey (l.headD []) "description") h
  exact absurd h2 (by decide)

/-- Claim C1 (amended): on an uncaught exception from one entry's
enrichment the driver logs "  Error: ..." and continues — entries before
and after are processed exactly as they would be alone — but the failing
entry is left in the state enrichment had reached at the raise point
(the partially mutated object), not necessarily its original state, and
it is not counted. -/
theorem c1_amended (net : Net) (token : Option String)
    (pre post : List Template) (t : Template) (msg : String)
    (p : Template) (logs : List String)
    (h : enrich_template net token t = (Except.error (msg, p), logs)) :
    (enrich_all net token (pre ++ t :: post)).1
      = (enrich_all net token pre).1 ++ p :: (enrich_all net token post).1
    ∧ (enrich_all net token (pre ++ t :: post)).2.1
      = (enrich_all net token pre).2.1 + (enrich_all net token post).2.1
    ∧ ("  Error: " ++ msg) ∈ (enrich_all net token (pre ++ t :: post)).2.2 := by
  have hp : process_template net token t
      = (p, false, logs ++ ["  Error: " ++ msg]) := by
    simp [process_template, h]
  refine ⟨?_, ?_, ?_⟩
  · rw [enrich_all_append]; simp [enrich_all, hp]
  · rw [enrich_all_append]; simp [enrich_all, hp]
  · rw [enrich_all_append]; simp [enrich_all, hp]

/-- Claim C1, witness for the amended statement: the concrete raising
scenario, as the only entry of the catalog. -/
theorem c1_witness :
    (enrich_all net1 none ([] ++ t0 :: [])).1
      = (enrich_all net1 none []).1 ++ t0p :: (enrich_all net1 none []).1
    ∧ (enrich_all net1 none ([] ++ t0 :: [])).2.1
      = (enrich_all net1 none []).2.1 + (enrich_all net1 none []).2.1
    ∧ ("  Error: " ++ "TypeError") ∈ (enrich_all net1 none ([] ++ t0 :: [])).2.2 :=
  c1_amended net1 none [] [] t0 "TypeError" t0p ["  Fetching: library/nginx"] rfl

/-- Claim C2, counterexample: two failure paths contradict the claim.
A response body that decodes but fails JSON parsing returns absent with
NO logged diagnostic line, although the claim names 404 as the only
silent case; and a 2xx body that fails UTF-8 decoding (or a truncated
read) does not return absent at all — the exception escapes
`make_request` uncaught, contradicting "no failure path raises". -/
theorem c2_counterexample :
    make_request (fun _ => HttpOutcome.malformed) none
      "https://hub.docker.com/v2/repositories/library/nginx/" []
      = (Except.ok none, [])
    ∧ make_request (fun _ => HttpOutcome.undecodable "UnicodeDecodeError") none
      "https://hub.docker.com/v2/repositories/library/nginx/" []
      = (Except.error "UnicodeDecodeError", []) :=
  ⟨rfl, rfl⟩

/-- Claim C2 (amended): a non-raising failing lookup returns absent; a
non-404 HTTP error and a transport failure each emit a logged
diagnostic line; a not-found (404) response AND a response body that
fails JSON parsing return absent silently; a 2xx body that fails UTF-8
decoding (or a truncated read) is not absorbed — the exception
propagates uncaught out of the lookup. -/
theorem c2_amended (net : Net) (token : Option String) (url : String)
    (headers : List (String × String)) :
    (isFailure (net (build_request token url headers)) = true →
       isRaising (net (build_request token url headers)) = false →
       (make_request net token url headers).1 = Except.ok none)
    ∧ (isFailure (net (build_request token url headers)) = true →
       isRaising (net (build_request token url headers)) = false →
       isSilentFailure (net (build_request token url headers)) = false →
       (make_request net token url headers).2 ≠ [])
    ∧ (isSilentFailure (net (build_request token url headers)) = true →
       make_request net token url headers = (Except.ok none, []))
    ∧ (∀ msg, net (build_request token url headers) = HttpOutcome.undecodable msg →
       make_request net token url headers = (Except.error msg, [])) := by
  cases ho : net (build_request token url headers) with
  | success b => simp [make_request, ho, isFailure, isSilentFailure, isRaising]
  | malformed => simp [make_request, ho, isFailure, isSilentFailure, isRaising]
  | undecodable m => simp [make_request, ho, isFailure, isSilentFailure, isRaising]
  | httpError c =>
    by_cases h4 : c = 404
    · subst h4; simp [make_request, ho, isFailure, isSilentFailure, isRaising]
    · simp [make_request, ho, isFailure, isSilentFailure, isRaising, h4]
  | urlError m => simp [make_request, ho, isFailure, isSilentFailure, isRaising]

/-- Claim C2, witness: a 500 status yields absent plus a non-empty
diagnostic, and an undecodable body propagates its exception. -/
theorem c2_witness :
    (make_request (fun _ => HttpOutcome.httpError 500) none "u" []).1 = Except.ok none
    ∧ (make_request (fun _ => HttpOutcome.httpError 500) none "u" []).2 ≠ []
    ∧ make_request (fun _ => HttpOutcome.undecodable "boom") none "u" []
        = (Except.error "boom", []) :=
  ⟨(c2_amended (fun _ => HttpOutcome.httpError 500) none "u" []).1
     (by decide) (by decide),
   (c2_amended (fun _ => HttpOutcome.httpError 500) none "u" []).2.1
     (by decide) (by decide) (by decide),
   (c2_amended (fun _ => HttpOutcome.undecodable "boom") none "u" []).2.2.2
     "boom" rfl⟩

/-- Claim C3, code bug: for the description "https://github.com/foo/digit"
the matched repo segment is "digit", which ends in neither ".git" nor
"/", yet the resolver returns ("foo", "d"): `repo.rstrip(".git")` strips
ANY trailing characters drawn from the set {'.', 'g', 'i', 't'}, not the
suffix ".git".  The spec's intended trailing-suffix strip would return
("foo", "digit"). -/
theorem c3_code_bug :
    extract_github_repo
      (some ⟨Json.str "https://github.com/foo/digit", Json.num 0, Json.num 0,
             Json.str "", false, "u"⟩) "nginx"
      = Except.ok (some ("foo", "d")) := rfl

/-- Claim C4, counterexample: an entry that already carried a `metadata`
key before the run and whose image is unresolvable is returned unchanged
— it gains nothing — yet the driver's `if "metadata" in enriched` counts
it: the summary reports 1, while the number of entries that gained a
metadata sub-mapping is 0. -/
theorem c4_counterexample :
    (enrich_all noNet none [t4]).1 = [t4]
    ∧ (enrich_all noNet none [t4]).2.1 = 1
    ∧ hasKey t4 "metadata" = true :=
  ⟨rfl, rfl, rfl⟩

/-- Claim C4 (amended): the count reported in the final summary equals
the number of entries whose enrichment completed without an exception
and whose resulting entry carries a `metadata` key — whether that key
was gained during this run or already present before it. -/
theorem c4_amended (net : Net) (token : Option String) (ts : List Template) :
    (enrich_all net token ts).2.1
      = (ts.filter (fun t => (process_template net token t).2.1)).length :=
  enrich_all_count_filter net token ts

/-- Claim C5: an image string containing one of the known foreign
registry hostnames as a substring, or containing a path separator with a
dot in the segment before the first separator, parses as unresolvable. -/
theorem c5_foreign_unresolvable (image : String)
    (h : KNOWN_REGISTRIES.any (fun r => containsSub r image) = true
         ∨ (strContains image '/' = true
            ∧ strContains (firstSegment image) '.' = true)) :
    parse_image_name image = none := by
  unfold parse_image_name
  by_cases h1 : KNOWN_REGISTRIES.any (fun r => containsSub r image) = true
  · rw [if_pos h1]
  · rcases h with h | ⟨ha, hb⟩
    · exact absurd h h1
    · rw [if_neg h1, if_pos (show (strContains image '/' && strContains (firstSegment image) '.') = true by rw [ha, hb]; rfl)]

/-- Claim C5, witness: a quay.io reference is unresolvable. -/
theorem c5_witness : parse_image_name "quay.io/biocontainers/samtools" = none :=
  c5_foreign_unresolvable "quay.io/biocontainers/samtools" (Or.inl (by decide))

/-- Claim C6: the parser's test vectors, and its defaulting rules — with
no colon in the image the tag defaults to "latest"; with no slash the
namespace defaults to "library" (the official-images namespace). -/
theorem c6_parse_vectors :
    parse_image_name "nginx" = some ("library", "nginx", "latest")
    ∧ parse_image_name "linuxserver/heimdall"
        = some ("linuxserver", "heimdall", "latest")
    ∧ parse_image_name "ghcr.io/org/image:v1" = none
    ∧ (∀ image namespace_ name tag,
         parse_image_name image = some (namespace_, name, tag) →
         strContains image ':' = false → tag = "latest")
    ∧ (∀ image namespace_ name tag,
         parse_image_name image = some (namespace_, name, tag) →
         strContains image '/' = false → namespace_ = "library") := by
  refine ⟨by decide, by decide, by decide, ?_, ?_⟩
  · intro image namespace_ name tag h hc
    unfold parse_image_name at h
    rw [hc, if_neg Bool.false_ne_true] at h
    by_cases h1 : (KNOWN_REGISTRIES.any fun r => containsSub r image) = true
    · rw [if_pos h1] at h
      exact Option.noConfusion h
    · rw [if_neg h1] at h
      by_cases h2 : (strContains image '/' && strContains (firstSegment image) '.') = true
      · rw [if_pos h2] at h
        exact Option.noConfusion h
      · rw [if_neg h2] at h
        by_cases h3 : strContains (image, "latest").1 '/' = true
        · rw [if_pos h3] at h
          have h5 := congrArg (fun x => x.2.2) (Option.some.inj h)
          exact h5.symm
        · rw [if_neg h3] at h
          have h5 := congrArg (fun x => x.2.2) (Option.some.inj h)
          exact h5.symm
  · intro image namespace_ name tag h hs
    have hb : strContains (rsplitColon image).1 '/' = false :=
      strContains_rsplitColon_fst hs
    unfold parse_image_name at h
    by_cases h1 : (KNOWN_REGISTRIES.any fun r => containsSub r image) = true
    · rw [if_pos h1] at h
      exact Option.noConfusion h
    · rw [if_neg h1, if_neg (show ¬(strContains image '/' && strContains (firstSegment image) '.') = true by simp [hs])] at h
      by_cases hc : strContains image ':' = true
      · rw [if_pos hc] at h
        rw [if_neg (show ¬strContains (rsplitColon image).1 '/' = true by simp [hb])] at h
        have h5 := congrArg (fun x => x.1) (Option.some.inj h)
        exact h5.symm
      · rw [if_neg hc] at h
        rw [if_neg (show ¬strContains (image, "latest").1 '/' = true by simp [hs])] at h
        have h5 := congrArg (fun x => x.1) (Option.some.inj h)
        exact h5.symm

/-- Claim C6, witness: the defaulting rules applied at the image
"redis". -/
theorem c6_witness : ("latest" : String) = "latest" ∧ ("library" : String) = "library" :=
  ⟨c6_parse_vectors.2.2.2.1 "redis" "library" "redis" "latest" rfl rfl,
   c6_parse_vectors.2.2.2.2 "redis" "library" "redis" "latest" rfl rfl⟩

/-- Claim C7: an entry whose image reference string is unresolvable is
returned exactly as it was — no metadata key, no description change, no
field touched, and nothing printed. -/
theorem c7_unresolvable_unchanged (net : Net) (token : Option String)
    (t : Template) (s : String)
    (h1 : dictGet t "image" = some (Json.str s))
    (h2 : parse_image_name s = none) :
    enrich_template net token t = (Except.ok t, []) := by
  have hs : s ≠ "" := by
    intro e
    rw [e] at h2
    exact absurd h2 (by decide)
  simp [enrich_template, dictGetD, h1, h2, truthy, hs]

/-- Claim C7, witness: a ghcr.io entry passes through unchanged. -/
theorem c7_witness :
    enrich_template noNet none [("image", Json.str "ghcr.io/a/b")]
      = (Except.ok [("image", Json.str "ghcr.io/a/b")], []) :=
  c7_unresolvable_unchanged noNet none _ "ghcr.io/a/b" rfl (by decide)

/-- Claim C8: the persisted document's template list has exactly as many
entries as the loaded one, and the entry at every position is the
processing of the entry that was loaded at that position — entries are
mutated in place, never added, removed or reordered. -/
theorem c8_count_invariant (net : Net) (token : Option String)
    (now : String) (data : Template) (ts : List Template)
    (out : Template) (cnt : Nat) (logs : List String)
    (hts : getTemplates (dictGetD data "templates" (Json.arr [])) = some ts)
    (hrun : main_run net token now data = Except.ok (out, cnt, logs)) :
    ∃ ts2 : List Template,
      dictGet out "templates" = some (Json.arr (ts2.map Json.obj))
      ∧ ts2.length = ts.length
      ∧ ∀ i : Nat, ts2[i]?
          = (ts[i]?).map (fun t => (process_template net token t).1) := by
  unfold main_run at hrun
  rw [hts] at hrun
  simp only [Except.ok.injEq, Prod.mk.injEq] at hrun
  obtain ⟨ho, -, -⟩ := hrun
  refine ⟨(enrich_all net token ts).1, ?_, ?_, ?_⟩
  · rw [← ho]
    exact dictGet_dictSet _ _ _
  · rw [enrich_all_fst_map]
    exact List.length_map _ _
  · intro i
    rw [enrich_all_fst_map, List.getElem?_map]

/-- Claim C8, witness: the one-entry catalog `c8data`. -/
theorem c8_witness :
    ∃ ts2 : List Template,
      dictGet c8out "templates" = some (Json.arr (ts2.map Json.obj))
      ∧ ts2.length = [[("image", Json.str "ghcr.io/a/b")]].length
      ∧ ∀ i : Nat, ts2[i]?
          = ([[("image", Json.str "ghcr.io/a/b")]][i]?).map
              (fun t => (process_template noNet none t).1) :=
  c8_count_invariant noNet none "T" c8data
    [[("image", Json.str "ghcr.io/a/b")]] c8out 0 [] rfl rfl

/-- Claim C9: the number formatter's test vectors, and the general
shape — at or above one million an "M" suffix with one decimal digit, at
or above one thousand (below one million) a "K" suffix with one decimal
digit, below one thousand the plain decimal rendering. -/
theorem c9_format_number :
    format_number 500 = "500"
    ∧ format_number 1500 = "1.5K"
    ∧ format_number 2300000 = "2.3M"
    ∧ (∀ n : Int, 1000000 ≤ n →
        ∃ q r : Int, 0 ≤ r ∧ r < 10
          ∧ format_number n = toString q ++ "." ++ toString r ++ "M")
    ∧ (∀ n : Int, 1000 ≤ n → n < 1000000 →
        ∃ q r : Int, 0 ≤ r ∧ r < 10
          ∧ format_number n = toString q ++ "." ++ toString r ++ "K")
    ∧ (∀ n : Int, n < 1000 → format_number n = toString n) := by
  refine ⟨by decide, by decide, by decide, ?_, ?_, ?_⟩
  · intro n hn
    refine ⟨roundHalf10 n 1000000 / 10, roundHalf10 n 1000000 % 10,
      Int.emod_nonneg _ (by decide), Int.emod_lt_of_pos _ (by decide), ?_⟩
    unfold format_number
    rw [if_pos hn]
    rfl
  · intro n hn1 hn2
    refine ⟨roundHalf10 n 1000 / 10, roundHalf10 n 1000 % 10,
      Int.emod_nonneg _ (by decide), Int.emod_lt_of_pos _ (by decide), ?_⟩
    unfold format_number
    rw [if_neg (by omega), if_pos hn1]
    rfl
  · intro n hn
    unfold format_number
    rw [if_neg (by omega), if_neg (by omega)]

/-- Claim C9, witness: the general clauses at 7000000, 456789 and 12. -/
theorem c9_witness :
    (∃ q r : Int, 0 ≤ r ∧ r < 10
      ∧ format_number 7000000 = toString q ++ "." ++ toString r ++ "M")
    ∧ (∃ q r : Int, 0 ≤ r ∧ r < 10
      ∧ format_number 456789 = toString q ++ "." ++ toString r ++ "K")
    ∧ format_number 12 = toString (12 : Int) :=
  ⟨c9_format_number.2.2.2.1 7000000 (by decide),
   c9_format_number.2.2.2.2.1 456789 (by decide) (by decide),
   c9_format_number.2.2.2.2.2 12 (by decide)⟩

/-- Claim C10, counterexample: the token is attached whenever the URL
contains "github.com" as a substring, and the registry-lookup URL embeds
the repository name — so the Docker Hub request for
someuser/github.com-mirror carries the Authorization header, and against
a transport that can observe headers the Registry Lookup's result
differs between a run with the credential and a run without it. -/
theorem c10_counterexample :
    ((build_request (some "tok")
        (dockerhub_url "someuser" "github.com-mirror") []).headers.any
      (fun p => p.1 == "Authorization")) = true
    ∧ fetch_dockerhub_info sniffNet (some "tok") "someuser" "github.com-mirror"
      ≠ fetch_dockerhub_info sniffNet none "someuser" "github.com-mirror" := by
  refine ⟨by decide, fun h => ?_⟩
  have h2 := congrArg
    (fun r => match r.1 with
      | Except.ok (some d) =>
        match d.pull_count with
        | Json.num n => n
        | _ => (0 : Int)
      | _ => (0 : Int)) h
  exact absurd h2 (by decide)

/-- Claim C10 (amended): when the registry-lookup URL does not contain
"github.com" as a substring — every normal namespace/name — no
Authorization header is sent and the lookup's result is identical
across any two credential values. -/
theorem c10_amended (net : Net) (token1 token2 : Option String)
    (namespace_ name : String)
    (h : containsSub "github.com" (dockerhub_url namespace_ name) = false) :
    ((build_request token1 (dockerhub_url namespace_ name) []).headers.any
        (fun p => p.1 == "Authorization")) = false
    ∧ fetch_dockerhub_info net token1 namespace_ name
      = fetch_dockerhub_info net token2 namespace_ name := by
  have hb : ∀ tk : Option String,
      build_request tk (dockerhub_url namespace_ name) []
        = ⟨dockerhub_url namespace_ name,
           [("User-Agent", "PortainerTemplatesEnricher/1.0")]⟩ := by
    intro tk
    unfold build_request
    rw [h]
    simp
  constructor
  · rw [hb token1]
    rfl
  · have hm : make_request net token1 (dockerhub_url namespace_ name) []
        = make_request net token2 (dockerhub_url namespace_ name) [] := by
      unfold make_request
      rw [hb token1, hb token2]
    unfold fetch_dockerhub_info
    rw [hm]

/-- Claim C10, witness: the linuxserver/heimdall lookup is independent
of the credential and sends no Authorization header. -/
theorem c10_witness :
    ((build_request (some "x") (dockerhub_url "linuxserver" "heimdall") []).headers.any
        (fun p => p.1 == "Authorization")) = false
    ∧ fetch_dockerhub_info noNet (some "x") "linuxserver" "heimdall"
      = fetch_dockerhub_info noNet none "linuxserver" "heimdall" :=
  c10_amended noNet (some "x") none "linuxserver" "heimdall" (by decide)
